import Mathlib

/-!
Shallow embedding of the transaction / stock engine of the chat-bot storefront
repository (files src/ext/trx.py, src/ext/balance_manager.py, src/ext/live.py,
src/ext/product_manager.py, src/cogs/admin.py, src/ext/constants.py).

Database tables are modelled as association lists; SQLite row updates are
modelled as maps over those lists.  Machine integers are Int (SQLite INTEGER
is 64-bit but none of the verified claims approaches overflow; Python ints are
unbounded).  Timestamps are abstracted to Int instants.  Each Python function
touching the database becomes a pure Lean function from a DB state to a
result together with the successor DB state.
-/

/-- Per-account balance row of the users table: three denomination columns
balance_wl, balance_dl, balance_bgl (src/database.py lines 39-47). -/
structure Balance where
  wl : Int
  dl : Int
  bgl : Int
deriving Repr, DecidableEq

/-- Weighted total in base units, get_total_wls of src/ext/trx.py lines 26-28. -/
def get_total_wls (balance_wl balance_dl balance_bgl : Int) : Int :=
  balance_wl + balance_dl * 100 + balance_bgl * 10000

/-- Total of a balance row, wrapping get_total_wls. -/
def Balance.total (b : Balance) : Int :=
  get_total_wls b.wl b.dl b.bgl

/-- Row of the transaction_log table (src/ext/trx.py lines 60-72); the code
stores old/new balance snapshots through format_balance, which is injective in
the three fields, so the snapshots are kept as Balance values. -/
structure LogEntry where
  growid : String
  amount : Int
  type : String
  details : String
  old_balance : Balance
  new_balance : Balance
deriving Repr, DecidableEq

/-- Row of the balance_transactions table used by BalanceManager
(src/ext/balance_manager.py lines 68-74). -/
structure BalanceTx where
  growid : String
  type : String
  amount_wl : Int
  amount_dl : Int
  amount_bgl : Int
deriving Repr, DecidableEq

/-- Row of the products table (src/database.py lines 59-67). -/
structure Product where
  code : String
  name : String
  price : Int
  stock : Int
deriving Repr, DecidableEq

/-- Row of the product_stock table (src/ext/trx.py lines 182-195). -/
structure StockItem where
  id : Nat
  product_code : String
  content : String
  used : Bool
  used_by : Option String
deriving Repr, DecidableEq

/-- The shared persistent store: the tables touched by the verified claims. -/
structure DB where
  user_growid : List (Nat × String)
  users : List (String × Balance)
  products : List Product
  product_stock : List StockItem
  transaction_log : List LogEntry
  balance_transactions : List BalanceTx
deriving Repr, DecidableEq

/-- SELECT balance_wl, balance_dl, balance_bgl FROM users WHERE growid = ?
(first matching row; growid is the primary key). -/
def lookupBal : List (String × Balance) → String → Option Balance
  | [], _ => none
  | (k, b) :: rest, g => if k = g then some b else lookupBal rest g

/-- UPDATE users SET balance_* = ? WHERE growid = ?  — every row with the
matching key is overwritten; a missing key leaves the table unchanged. -/
def updateUsers : List (String × Balance) → String → Balance →
    List (String × Balance)
  | [], _, _ => []
  | (k, v) :: rest, g, b =>
    (if k = g then (g, b) else (k, v)) :: updateUsers rest g b

/-- SELECT ... FROM products WHERE code = ? (code is the primary key). -/
def lookupProduct : List Product → String → Option Product
  | [], _ => none
  | p :: rest, c => if p.code = c then some p else lookupProduct rest c

/-- SELECT growid FROM user_growid WHERE user_id = ?. -/
def lookupGrowid : List (Nat × String) → Nat → Option String
  | [], _ => none
  | (k, g) :: rest, u => if k = u then some g else lookupGrowid rest u

/-- TransactionCog.get_user_balance (src/ext/trx.py lines 77-94): returns the
stored row, inserting a fresh zero row when the account is unknown. -/
def get_user_balance (db : DB) (growid : String) : Balance × DB :=
  match lookupBal db.users growid with
  | some b => (b, db)
  | none =>
    (⟨0, 0, 0⟩, { db with users := db.users ++ [(growid, ⟨0, 0, 0⟩)] })

/-- TransactionCog.update_balance (src/ext/trx.py lines 96-143): reads the old
balance (zero when the row is missing), adds the three deltas componentwise
with no negativity check of any kind, writes the sums back, and appends one
transaction_log entry whose amount is the weighted total of the deltas. -/
def update_balance (db : DB) (growid : String) (wl dl bgl : Int)
    (transaction_type details : String) : DB × Balance :=
  let old := (lookupBal db.users growid).getD ⟨0, 0, 0⟩
  let nb : Balance := ⟨old.wl + wl, old.dl + dl, old.bgl + bgl⟩
  let entry : LogEntry :=
    ⟨growid, get_total_wls wl dl bgl, transaction_type, details, old, nb⟩
  ({ db with
      users := updateUsers db.users growid nb,
      transaction_log := db.transaction_log ++ [entry] }, nb)

/-- BalanceManager.add_balance (src/ext/balance_manager.py lines 31-82):
updates the existing row or inserts a new one, then logs an ADD row. -/
def add_balance (db : DB) (growid : String) (wl dl bgl : Int) : Bool × DB :=
  let tx : BalanceTx := ⟨growid, "ADD", wl, dl, bgl⟩
  match lookupBal db.users growid with
  | some cur =>
    (true, { db with
        users := updateUsers db.users growid ⟨cur.wl + wl, cur.dl + dl, cur.bgl + bgl⟩,
        balance_transactions := db.balance_transactions ++ [tx] })
  | none =>
    (true, { db with
        users := db.users ++ [(growid, ⟨wl, dl, bgl⟩)],
        balance_transactions := db.balance_transactions ++ [tx] })

/-- BalanceManager.remove_balance (src/ext/balance_manager.py lines 84-134):
fails (returns false, nothing written) when the account is unknown or when any
single denomination field would become negative — the check is per field, not
on the weighted total; otherwise writes the differences and logs a REMOVE row. -/
def remove_balance (db : DB) (growid : String) (wl dl bgl : Int) : Bool × DB :=
  match lookupBal db.users growid with
  | none => (false, db)
  | some cur =>
    if cur.wl - wl < 0 ∨ cur.dl - dl < 0 ∨ cur.bgl - bgl < 0 then (false, db)
    else
      (true, { db with
          users := updateUsers db.users growid
            ⟨cur.wl - wl, cur.dl - dl, cur.bgl - bgl⟩,
          balance_transactions :=
            db.balance_transactions ++ [⟨growid, "REMOVE", wl, dl, bgl⟩] })

/-- Fuel-indexed form of the first conversion loop of
TransactionCog.process_purchase (src/ext/trx.py lines 302-305):
while remaining > new_wl + new_dl * 100 and new_bgl > 0, break one BGL into
100 DL.  The loop body strictly decreases new_bgl, so running it with
new_bgl.toNat units of fuel reaches the loop exit. -/
def convertBGLAux : Nat → Int → Int → Int → Int → Int × Int
  | 0, _, _, dl, bgl => (dl, bgl)
  | fuel + 1, remaining, wl, dl, bgl =>
    if remaining > wl + dl * 100 ∧ bgl > 0 then
      convertBGLAux fuel remaining wl (dl + 100) (bgl - 1)
    else (dl, bgl)

/-- The first conversion loop: final (new_dl, new_bgl). -/
def convertBGL (remaining wl dl bgl : Int) : Int × Int :=
  convertBGLAux bgl.toNat remaining wl dl bgl

/-- Fuel-indexed form of the second conversion loop
(src/ext/trx.py lines 307-310): while remaining > new_wl and new_dl > 0,
break one DL into 100 WL.  The loop body strictly decreases new_dl. -/
def convertDLAux : Nat → Int → Int → Int → Int × Int
  | 0, _, wl, dl => (wl, dl)
  | fuel + 1, remaining, wl, dl =>
    if remaining > wl ∧ dl > 0 then
      convertDLAux fuel remaining (wl + 100) (dl - 1)
    else (wl, dl)

/-- The second conversion loop: final (new_wl, new_dl). -/
def convertDL (remaining wl dl : Int) : Int × Int :=
  convertDLAux dl.toNat remaining wl dl

/-- The balance break-down of TransactionCog.process_purchase
(src/ext/trx.py lines 296-316): run both conversion loops, then subtract the
required amount from new_wl if it covers it, otherwise the code answers
"Balance conversion error!" (modelled as none). -/
def computeNewBalance (wl dl bgl required : Int) : Option Balance :=
  if (convertDL required wl (convertBGL required wl dl bgl).1).1 ≥ required then
    some ⟨(convertDL required wl (convertBGL required wl dl bgl).1).1 - required,
          (convertDL required wl (convertBGL required wl dl bgl).1).2,
          (convertBGL required wl dl bgl).2⟩
  else none

/-- Result values of TransactionCog.process_purchase, one constructor per
returned message shape (src/ext/trx.py lines 243-412). -/
inductive PurchaseResult where
  | noGrowId
  | productNotFound
  | notEnoughStock (stock : Int)
  | insufficientBalance
  | conversionError
  | notEnoughItems (left : Nat)
  | purchaseError
  | success
deriving Repr, DecidableEq

/-- Everything process_purchase has computed by the time it reaches the await
of update_balance at src/ext/trx.py line 333: the resolved account, the three
deltas, the ids of the stock rows fetched at lines 319-326, and the product
data used for the log detail and the stock decrement. -/
structure Plan where
  growid : String
  dWl : Int
  dDl : Int
  dBgl : Int
  itemIds : List Nat
  quantity : Int
  code : String
  name : String
deriving Repr, DecidableEq

/-- Outcome of the read phase of process_purchase: either an early-return
message or a Plan for the write phase. -/
inductive ReadResult where
  | err (r : PurchaseResult)
  | ok (plan : Plan)
deriving Repr, DecidableEq

/-- SQLite LIMIT ? semantics: a negative limit returns every row. -/
def limitTake (q : Int) (l : List StockItem) : List StockItem :=
  if q < 0 then l else l.take q.toNat

/-- SELECT id, content FROM product_stock WHERE product_code = ? AND used = 0
LIMIT ? (src/ext/trx.py lines 319-324), reading rows in insertion order. -/
def selectStock (items : List StockItem) (code : String) (q : Int) :
    List StockItem :=
  limitTake q (items.filter (fun it => it.product_code = code ∧ it.used = false))

/-- Read phase of TransactionCog.process_purchase (src/ext/trx.py lines
253-329): resolve the GrowID, fetch the product, check the stock counter,
fetch the balance (get_user_balance may insert a zero row), check funds, run
the break-down, fetch the unused stock rows, check their count.  No table is
written except the possible zero-row insert inside get_user_balance. -/
def purchaseRead (db : DB) (userId : Nat) (code : String) (quantity : Int) :
    ReadResult × DB :=
  match lookupGrowid db.user_growid userId with
  | none => (.err .noGrowId, db)
  | some growid =>
    match lookupProduct db.products code with
    | none => (.err .productNotFound, db)
    | some prod =>
      if prod.stock < quantity then (.err (.notEnoughStock prod.stock), db)
      else
        let required := prod.price * quantity
        let rb := get_user_balance db growid
        let bal := rb.1
        let db1 := rb.2
        if bal.total < required then (.err .insufficientBalance, db1)
        else
          match computeNewBalance bal.wl bal.dl bal.bgl required with
          | none => (.err .conversionError, db1)
          | some nb =>
            let items := selectStock db1.product_stock code quantity
            if (items.length : Int) < quantity then
              (.err (.notEnoughItems items.length), db1)
            else
              (.ok ⟨growid, nb.wl - bal.wl, nb.dl - bal.dl, nb.bgl - bal.bgl,
                    items.map StockItem.id, quantity, code, prod.name⟩, db1)

/-- UPDATE product_stock SET used = 1, used_by = ? WHERE id = ? for each
fetched row (src/ext/trx.py lines 343-350). -/
def markUsedIds (db : DB) (ids : List Nat) (userName : String) : DB :=
  { db with product_stock := db.product_stock.map (fun it =>
      if it.id ∈ ids then { it with used := true, used_by := some userName }
      else it) }

/-- UPDATE products SET stock = stock - ? WHERE code = ?
(src/ext/trx.py lines 353-357). -/
def decStock (db : DB) (code : String) (q : Int) : DB :=
  { db with products := db.products.map (fun p =>
      if p.code = code then { p with stock := p.stock - q } else p) }

/-- Detail string passed to update_balance at src/ext/trx.py line 339. -/
def purchaseDetails (plan : Plan) : String :=
  "Purchased " ++ toString plan.quantity ++ "x " ++ plan.name ++
    " (" ++ plan.code ++ ")"

/-- Write phase of process_purchase (src/ext/trx.py lines 331-359): debit the
ledger through update_balance (which commits on its own connection), then mark
the fetched rows used and decrement the product stock counter. -/
def purchaseCommit (db : DB) (userName : String) (plan : Plan) : DB :=
  let db2 := (update_balance db plan.growid plan.dWl plan.dDl plan.dBgl
      "PURCHASE" (purchaseDetails plan)).1
  decStock (markUsedIds db2 plan.itemIds userName) plan.code plan.quantity

/-- One full execution of TransactionCog.process_purchase.  When markFails is
true, the statements after the update_balance call raise (src/ext/trx.py lines
343-359) and the except branch at lines 401-404 rolls back the purchase
connection; that rollback discards the uncommitted stock marks and the stock
decrement but cannot undo the balance debit, which update_balance already
committed on a separate connection (lines 98, 134). -/
def process_purchase_run (markFails : Bool) (db : DB) (userId : Nat)
    (userName code : String) (quantity : Int) : PurchaseResult × DB :=
  match purchaseRead db userId code quantity with
  | (.err r, db1) => (r, db1)
  | (.ok plan, db1) =>
    if markFails then
      (.purchaseError,
        (update_balance db1 plan.growid plan.dWl plan.dDl plan.dBgl
          "PURCHASE" (purchaseDetails plan)).1)
    else
      (.success, purchaseCommit db1 userName plan)

/-- The normal execution of process_purchase. -/
def process_purchase (db : DB) (userId : Nat) (userName code : String)
    (quantity : Int) : PurchaseResult × DB :=
  process_purchase_run false db userId userName code quantity

/-- Two concurrent purchase handlers as the bot actually schedules them: one
runs to completion, then the other.  This serial order is the only schedule
the source admits, because process_purchase never yields to the single
asyncio event loop between its first read and its commit — get_user_balance
and update_balance are async functions with fully synchronous sqlite bodies,
so awaiting them (src/ext/trx.py lines 283, 333) runs them inline, and the
first true suspension point, the await of user.send at line 378, comes only
after conn.commit at line 359. -/
def twoSerial (db : DB) (userA : Nat) (nameA : String) (userB : Nat)
    (nameB code : String) (qA qB : Int) :
    PurchaseResult × PurchaseResult × DB :=
  let ra := process_purchase db userA nameA code qA
  let rb := process_purchase ra.2 userB nameB code qB
  (ra.1, rb.1, rb.2)

/-- BuyModal.on_submit (src/ext/live.py lines 54-91): a non-positive quantity
is rejected with a message and process_purchase is never called; otherwise the
purchase runs.  (The non-integer-input rejection and the upper-casing of the
product code are input-parsing steps outside this model.) -/
def buyModalSubmit (db : DB) (userId : Nat) (userName code : String)
    (quantity : Int) : Option PurchaseResult × DB :=
  if quantity ≤ 0 then (none, db)
  else
    let r := process_purchase db userId userName code quantity
    (some r.1, r.2)

/-- The per-transaction ceiling of src/ext/constants.py line 13; defined there
and referenced by no other source line. -/
def MAX_ITEMS_PER_TRANSACTION : Int := 100

/-- The first conversion loop preserves the combined value of the two upper
denominations (each step trades one BGL for exactly 100 DL). -/
theorem convertBGLAux_value (fuel : Nat) (r wl dl bgl : Int) :
    (convertBGLAux fuel r wl dl bgl).1 * 100 +
      (convertBGLAux fuel r wl dl bgl).2 * 10000 = dl * 100 + bgl * 10000 := by
  induction fuel generalizing dl bgl with
  | zero => simp [convertBGLAux]
  | succ n ih =>
    by_cases h : r > wl + dl * 100 ∧ bgl > 0
    · simp only [convertBGLAux, if_pos h]
      rw [ih]; ring
    · simp [convertBGLAux, if_neg h]

/-- The first conversion loop never drives the BGL field negative. -/
theorem convertBGLAux_bgl_nonneg (fuel : Nat) (r wl dl bgl : Int)
    (hb : 0 ≤ bgl) : 0 ≤ (convertBGLAux fuel r wl dl bgl).2 := by
  induction fuel generalizing dl bgl with
  | zero => simpa [convertBGLAux] using hb
  | succ n ih =>
    by_cases h : r > wl + dl * 100 ∧ bgl > 0
    · simp only [convertBGLAux, if_pos h]
      exact ih _ _ (by omega)
    · simpa [convertBGLAux, if_neg h] using hb

/-- The first conversion loop only ever increases the DL field. -/
theorem convertBGLAux_dl_le (fuel : Nat) (r wl dl bgl : Int) :
    dl ≤ (convertBGLAux fuel r wl dl bgl).1 := by
  induction fuel generalizing dl bgl with
  | zero => simp [convertBGLAux]
  | succ n ih =>
    by_cases h : r > wl + dl * 100 ∧ bgl > 0
    · simp only [convertBGLAux, if_pos h]
      exact le_trans (by omega) (ih (dl + 100) (bgl - 1))
    · simp [convertBGLAux, if_neg h]

/-- With enough fuel to reach the loop exit, the first loop stops only when
the amount fits in WL plus DL or the BGL field is exhausted. -/
theorem convertBGLAux_post (fuel : Nat) (r wl dl bgl : Int)
    (hf : bgl.toNat ≤ fuel) :
    r ≤ wl + (convertBGLAux fuel r wl dl bgl).1 * 100 ∨
      (convertBGLAux fuel r wl dl bgl).2 ≤ 0 := by
  induction fuel generalizing dl bgl with
  | zero =>
    simp only [convertBGLAux]
    omega
  | succ n ih =>
    by_cases h : r > wl + dl * 100 ∧ bgl > 0
    · simp only [convertBGLAux, if_pos h]
      exact ih (dl + 100) (bgl - 1) (by omega)
    · simp only [convertBGLAux, if_neg h]
      omega

/-- The second conversion loop preserves the combined value of WL and DL. -/
theorem convertDLAux_value (fuel : Nat) (r wl dl : Int) :
    (convertDLAux fuel r wl dl).1 + (convertDLAux fuel r wl dl).2 * 100 =
      wl + dl * 100 := by
  induction fuel generalizing wl dl with
  | zero => simp [convertDLAux]
  | succ n ih =>
    by_cases h : r > wl ∧ dl > 0
    · simp only [convertDLAux, if_pos h]
      rw [ih]; ring
    · simp [convertDLAux, if_neg h]

/-- The second conversion loop never drives the DL field negative. -/
theorem convertDLAux_dl_nonneg (fuel : Nat) (r wl dl : Int) (hd : 0 ≤ dl) :
    0 ≤ (convertDLAux fuel r wl dl).2 := by
  induction fuel generalizing wl dl with
  | zero => simpa [convertDLAux] using hd
  | succ n ih =>
    by_cases h : r > wl ∧ dl > 0
    · simp only [convertDLAux, if_pos h]
      exact ih _ _ (by omega)
    · simpa [convertDLAux, if_neg h] using hd

/-- The second conversion loop only ever increases the WL field. -/
theorem convertDLAux_wl_le (fuel : Nat) (r wl dl : Int) :
    wl ≤ (convertDLAux fuel r wl dl).1 := by
  induction fuel generalizing wl dl with
  | zero => simp [convertDLAux]
  | succ n ih =>
    by_cases h : r > wl ∧ dl > 0
    · simp only [convertDLAux, if_pos h]
      exact le_trans (by omega) (ih (wl + 100) (dl - 1))
    · simp [convertDLAux, if_neg h]

/-- With enough fuel to reach the loop exit, the second loop stops only when
WL covers the amount or the DL field is exhausted. -/
theorem convertDLAux_post (fuel : Nat) (r wl dl : Int) (hf : dl.toNat ≤ fuel) :
    r ≤ (convertDLAux fuel r wl dl).1 ∨ (convertDLAux fuel r wl dl).2 ≤ 0 := by
  induction fuel generalizing wl dl with
  | zero =>
    simp only [convertDLAux]
    omega
  | succ n ih =>
    by_cases h : r > wl ∧ dl > 0
    · simp only [convertDLAux, if_pos h]
      exact ih (wl + 100) (dl - 1) (by omega)
    · simp only [convertDLAux, if_neg h]
      omega

/-- After both conversion loops of process_purchase, run on a balance with
non-negative fields whose total covers the required amount, the WL field
covers the amount. -/
theorem conversion_covers (wl dl bgl r : Int) (hw : 0 ≤ wl) (hd : 0 ≤ dl)
    (hb : 0 ≤ bgl) (h : r ≤ get_total_wls wl dl bgl) :
    r ≤ (convertDL r wl (convertBGL r wl dl bgl).1).1 := by
  unfold convertDL convertBGL
  have hv := convertBGLAux_value bgl.toNat r wl dl bgl
  have hpost := convertBGLAux_post bgl.toNat r wl dl bgl (le_refl _)
  have hbgl := convertBGLAux_bgl_nonneg bgl.toNat r wl dl bgl hb
  have hdl := convertBGLAux_dl_le bgl.toNat r wl dl bgl
  have hv2 := convertDLAux_value (convertBGLAux bgl.toNat r wl dl bgl).1.toNat
    r wl (convertBGLAux bgl.toNat r wl dl bgl).1
  have hpost2 := convertDLAux_post (convertBGLAux bgl.toNat r wl dl bgl).1.toNat
    r wl (convertBGLAux bgl.toNat r wl dl bgl).1 (le_refl _)
  have hdl2 := convertDLAux_dl_nonneg (convertBGLAux bgl.toNat r wl dl bgl).1.toNat
    r wl (convertBGLAux bgl.toNat r wl dl bgl).1 (by omega)
  unfold get_total_wls at h
  omega

/-- Lookup in the _last_use dictionary of StockView (src/ext/live.py line
185): user id to the timestamp of the last allowed button press. -/
def lookupTime : List (Nat × Int) → Nat → Option Int
  | [], _ => none
  | (k, t) :: rest, u => if k = u then some t else lookupTime rest u

/-- Python dict assignment self._last_use[user_id] = now: overwrite the
existing entry or append a new one. -/
def setTime (m : List (Nat × Int)) (k : Nat) (v : Int) : List (Nat × Int) :=
  if (lookupTime m k).isSome then
    m.map (fun p => if p.1 = k then (k, v) else p)
  else m ++ [(k, v)]

/-- Cooldown window of src/ext/live.py line 20. -/
def COOLDOWN_SECONDS : Int := 3

/-- StockView.check_cooldown (src/ext/live.py lines 244-257): the map is
keyed by the user id alone and is shared by all five buttons of the view;
within the window the call answers false (the interaction is suppressed)
and writes nothing; otherwise it records the current time and answers true. -/
def check_cooldown (lastUse : List (Nat × Int)) (userId : Nat) (now : Int) :
    Bool × List (Nat × Int) :=
  let last := (lookupTime lastUse userId).getD 0
  if now - last < COOLDOWN_SECONDS then (false, lastUse)
  else (true, setTime lastUse userId now)

/-- Outcomes of the two product-deletion implementations. -/
inductive DeleteResult where
  | notFound
  | hasStock (stock : Int)
  | deleted
deriving Repr, DecidableEq

/-- ProductManager.delete_product (src/ext/product_manager.py lines 122-141):
refuses when the stored stock counter is positive, otherwise deletes the row. -/
def pm_delete_product (db : DB) (code : String) : DeleteResult × DB :=
  match lookupProduct db.products code with
  | none => (.notFound, db)
  | some p =>
    if p.stock > 0 then (.hasStock p.stock, db)
    else
      (.deleted,
        { db with products := db.products.filter (fun q => q.code ≠ code) })

/-- AdminCog.delete_product (src/cogs/admin.py lines 167-217), confirmed
branch: after the reaction confirmation it deletes the products row with no
stock check of any kind. -/
def admin_delete_product (db : DB) (code : String) : DeleteResult × DB :=
  match lookupProduct db.products code with
  | none => (.notFound, db)
  | some _ =>
    (.deleted,
      { db with products := db.products.filter (fun q => q.code ≠ code) })

/-- Value preservation of the first loop, stated over convertBGL. -/
theorem convertBGL_value (r wl dl bgl : Int) :
    (convertBGL r wl dl bgl).1 * 100 + (convertBGL r wl dl bgl).2 * 10000 =
      dl * 100 + bgl * 10000 := by
  unfold convertBGL
  exact convertBGLAux_value bgl.toNat r wl dl bgl

/-- Non-negativity of the BGL field after the first loop. -/
theorem convertBGL_bgl_nonneg (r wl dl bgl : Int) (hb : 0 ≤ bgl) :
    0 ≤ (convertBGL r wl dl bgl).2 := by
  unfold convertBGL
  exact convertBGLAux_bgl_nonneg bgl.toNat r wl dl bgl hb

/-- The first loop only increases the DL field. -/
theorem convertBGL_dl_le (r wl dl bgl : Int) :
    dl ≤ (convertBGL r wl dl bgl).1 := by
  unfold convertBGL
  exact convertBGLAux_dl_le bgl.toNat r wl dl bgl

/-- Value preservation of the second loop, stated over convertDL. -/
theorem convertDL_value (r wl dl : Int) :
    (convertDL r wl dl).1 + (convertDL r wl dl).2 * 100 = wl + dl * 100 := by
  unfold convertDL
  exact convertDLAux_value dl.toNat r wl dl

/-- Non-negativity of the DL field after the second loop. -/
theorem convertDL_dl_nonneg (r wl dl : Int) (hd : 0 ≤ dl) :
    0 ≤ (convertDL r wl dl).2 := by
  unfold convertDL
  exact convertDLAux_dl_nonneg dl.toNat r wl dl hd

/-- C5: for every starting balance with non-negative denomination fields and
every purchase amount not exceeding the total in base units, the greedy
break-down of process_purchase ends with the lowest denomination covering the
remainder, so the "Balance conversion error!" branch at src/ext/trx.py line
316 is unreachable under the InsufficientFunds pre-check of line 289. -/
theorem C5_conversion_error_unreachable (wl dl bgl amount : Int) (hw : 0 ≤ wl)
    (hd : 0 ≤ dl) (hb : 0 ≤ bgl) (h : amount ≤ get_total_wls wl dl bgl) :
    (computeNewBalance wl dl bgl amount).isSome := by
  have hcov := conversion_covers wl dl bgl amount hw hd hb h
  unfold computeNewBalance
  split
  · rfl
  · omega

/-- Witness for C5 at the balance (0, 0, 1) and amount 50. -/
theorem C5_conversion_error_unreachable_witness :
    (computeNewBalance 0 0 1 50).isSome :=
  C5_conversion_error_unreachable 0 0 1 50 (by decide) (by decide) (by decide)
    (by decide)

/-- C10: for every starting balance with non-negative fields whose total
covers price times quantity, the break-down of process_purchase produces a
balance with non-negative fields whose total is the old total minus price
times quantity — the conversions conserve value and exactly the required
amount is subtracted. -/
theorem C10_debit_conserves_value (wl dl bgl price quantity : Int)
    (hw : 0 ≤ wl) (hd : 0 ≤ dl) (hb : 0 ≤ bgl)
    (h : price * quantity ≤ get_total_wls wl dl bgl) :
    ∃ b : Balance, computeNewBalance wl dl bgl (price * quantity) = some b ∧
      0 ≤ b.wl ∧ 0 ≤ b.dl ∧ 0 ≤ b.bgl ∧
      b.total = get_total_wls wl dl bgl - price * quantity := by
  have hcov := conversion_covers wl dl bgl (price * quantity) hw hd hb h
  have hv := convertBGL_value (price * quantity) wl dl bgl
  have hb1 := convertBGL_bgl_nonneg (price * quantity) wl dl bgl hb
  have hd1 := convertBGL_dl_le (price * quantity) wl dl bgl
  have hv2 := convertDL_value (price * quantity) wl
    (convertBGL (price * quantity) wl dl bgl).1
  have hd2 := convertDL_dl_nonneg (price * quantity) wl
    (convertBGL (price * quantity) wl dl bgl).1 (by omega)
  refine ⟨⟨(convertDL (price * quantity) wl
              (convertBGL (price * quantity) wl dl bgl).1).1 - price * quantity,
           (convertDL (price * quantity) wl
              (convertBGL (price * quantity) wl dl bgl).1).2,
           (convertBGL (price * quantity) wl dl bgl).2⟩, ?_, ?_, ?_, ?_, ?_⟩
  · unfold computeNewBalance
    split
    · rfl
    · omega
  · dsimp only
    omega
  · dsimp only
    omega
  · dsimp only
    omega
  · simp only [Balance.total, get_total_wls] at h ⊢
    omega

/-- Witness for C10 at the balance (0, 0, 1) and price 50, quantity 1. -/
theorem C10_debit_conserves_value_witness :
    ∃ b : Balance, computeNewBalance 0 0 1 (50 * 1) = some b ∧
      0 ≤ b.wl ∧ 0 ≤ b.dl ∧ 0 ≤ b.bgl ∧
      b.total = get_total_wls 0 0 1 - 50 * 1 :=
  C10_debit_conserves_value 0 0 1 50 1 (by decide) (by decide) (by decide)
    (by decide)

/-- Reading back an account after an UPDATE of that account returns the
written row exactly when the account existed before. -/
theorem lookupBal_updateUsers (users : List (String × Balance)) (g : String)
    (b : Balance) :
    lookupBal (updateUsers users g b) g = (lookupBal users g).map (fun _ => b) := by
  induction users with
  | nil => rfl
  | cons p rest ih =>
    obtain ⟨k, v⟩ := p
    unfold updateUsers
    by_cases h : k = g
    · rw [if_pos h]
      subst h
      simp [lookupBal]
    · rw [if_neg h]
      simp [lookupBal, h, ih]

/-- Concrete single-account store used to exercise the balance-adjustment
operations. -/
def dbAdjust : DB := ⟨[], [("ALICE", ⟨0, 0, 0⟩)], [], [], [], []⟩

/-- C1 counterexample: TransactionCog.update_balance applied to the account
ALICE holding (0, 0, 0) with delta (-5, 0, 0) — the resulting total -5 is
negative, yet the delta is applied and stored; nothing fails. -/
theorem C1_counterexample :
    (update_balance dbAdjust "ALICE" (-5) 0 0 "ADMIN_REMOVE" "").2 =
      ⟨-5, 0, 0⟩ ∧
    lookupBal (update_balance dbAdjust "ALICE" (-5) 0 0
        "ADMIN_REMOVE" "").1.users "ALICE" = some ⟨-5, 0, 0⟩ ∧
    (⟨-5, 0, 0⟩ : Balance).total < 0 := by
  decide

/-- C1 amended: TransactionCog.update_balance applies any delta
unconditionally, with no negativity check, storing and returning the
componentwise sums even when the resulting total is negative;
BalanceManager.remove_balance checks each denomination field separately, not
the total: it fails and leaves the stored balance unchanged when any single
field would go negative (even if the total would stay non-negative), and
applies the delta when all three fields stay non-negative. -/
theorem C1_adjust_balance_behavior (db : DB) (g : String) (wl dl bgl : Int)
    (cur : Balance) (t d : String)
    (hlook : lookupBal db.users g = some cur) :
    ((cur.wl - wl < 0 ∨ cur.dl - dl < 0 ∨ cur.bgl - bgl < 0) →
      remove_balance db g wl dl bgl = (false, db)) ∧
    (0 ≤ cur.wl - wl ∧ 0 ≤ cur.dl - dl ∧ 0 ≤ cur.bgl - bgl →
      (remove_balance db g wl dl bgl).1 = true ∧
      lookupBal (remove_balance db g wl dl bgl).2.users g =
        some ⟨cur.wl - wl, cur.dl - dl, cur.bgl - bgl⟩) ∧
    (update_balance db g wl dl bgl t d).2 =
      ⟨cur.wl + wl, cur.dl + dl, cur.bgl + bgl⟩ ∧
    lookupBal (update_balance db g wl dl bgl t d).1.users g =
      some ⟨cur.wl + wl, cur.dl + dl, cur.bgl + bgl⟩ := by
  refine ⟨?_, ?_, ?_, ?_⟩
  · intro hneg
    simp only [remove_balance, hlook]
    rw [if_pos hneg]
  · intro hpos
    have hcond : ¬(cur.wl - wl < 0 ∨ cur.dl - dl < 0 ∨ cur.bgl - bgl < 0) := by
      omega
    simp only [remove_balance, hlook]
    rw [if_neg hcond]
    simp [lookupBal_updateUsers, hlook]
  · simp [update_balance, hlook]
  · simp [update_balance, hlook, lookupBal_updateUsers]

/-- Second concrete store for the C1 witness: ALICE holds (0, 1, 0), total
100 base units. -/
def dbAdjust2 : DB := ⟨[], [("ALICE", ⟨0, 1, 0⟩)], [], [], [], []⟩

/-- Witness for C1: removing 50 WL from (0, 1, 0) fails per field although
the total 100 covers it; removing (0, 1, 0) succeeds; update_balance applies
a delta to the stored row. -/
theorem C1_adjust_balance_behavior_witness :
    remove_balance dbAdjust2 "ALICE" 50 0 0 = (false, dbAdjust2) ∧
    (remove_balance dbAdjust2 "ALICE" 0 1 0).1 = true ∧
    (update_balance dbAdjust2 "ALICE" 5 0 0 "ADMIN_ADD" "").2 =
      ⟨0 + 5, 1 + 0, 0 + 0⟩ :=
  ⟨(C1_adjust_balance_behavior dbAdjust2 "ALICE" 50 0 0 ⟨0, 1, 0⟩ "ADMIN_ADD" ""
      (by decide)).1 (by decide),
   ((C1_adjust_balance_behavior dbAdjust2 "ALICE" 0 1 0 ⟨0, 1, 0⟩ "ADMIN_ADD" ""
      (by decide)).2.1 (by decide)).1,
   (C1_adjust_balance_behavior dbAdjust2 "ALICE" 5 0 0 ⟨0, 1, 0⟩ "ADMIN_ADD" ""
      (by decide)).2.2.1⟩

/-- Store for Scenario B: BOB holds (0, 0, 1) and buys one unit priced 50. -/
def dbScenarioB : DB :=
  ⟨[(2, "BOB")], [("BOB", ⟨0, 0, 1⟩)], [⟨"PRD", "Prod", 50, 1⟩],
   [⟨1, "PRD", "itemB", false, none⟩], [], []⟩

/-- C4 counterexample: starting from (wl=0, dl=0, bgl=1), the successful
purchase of one unit priced 50 leaves (wl=50, dl=99, bgl=0), not the claimed
(wl=9950, dl=0, bgl=0): the loops convert only as much as needed, so 99 DL
remain unbroken. -/
theorem C4_counterexample :
    (process_purchase dbScenarioB 2 "bob" "PRD" 1).1 = .success ∧
    lookupBal (process_purchase dbScenarioB 2 "bob" "PRD" 1).2.users "BOB" =
      some ⟨50, 99, 0⟩ ∧
    some (⟨50, 99, 0⟩ : Balance) ≠ some ⟨9950, 0, 0⟩ := by
  decide

/-- C4 amended: starting from (0, 0, 1), the purchase of one unit priced 50
succeeds and leaves (wl=50, dl=99, bgl=0) — one BGL was broken into 100 DL,
one of those DL into 100 WL, and 50 WL were subtracted; the total of the
final balance is 9950 base units. -/
theorem C4_scenario_b :
    (process_purchase dbScenarioB 2 "bob" "PRD" 1).1 = .success ∧
    lookupBal (process_purchase dbScenarioB 2 "bob" "PRD" 1).2.users "BOB" =
      some ⟨50, 99, 0⟩ ∧
    (⟨50, 99, 0⟩ : Balance).total = 9950 := by
  decide

/-- Store for Scenario A: ALICE holds (50, 0, 0) and buys one unit priced 30. -/
def dbScenarioA : DB :=
  ⟨[(1, "ALICE")], [("ALICE", ⟨50, 0, 0⟩)], [⟨"PRD", "Prod", 30, 1⟩],
   [⟨1, "PRD", "secretline", false, none⟩], [], []⟩

/-- C6 counterexample: the single PURCHASE log entry produced by Scenario A
records amount -30 (update_balance logs the signed total of the deltas,
src/ext/trx.py line 127), not the claimed 30. -/
theorem C6_counterexample :
    (process_purchase dbScenarioA 1 "alice" "PRD" 1).2.transaction_log.map
        LogEntry.amount = [-30] ∧
    (-30 : Int) ≠ 30 := by
  decide

/-- C6 amended: Scenario A succeeds, leaves ALICE with (20, 0, 0), and
appends exactly one ledger entry of kind PURCHASE whose recorded amount is
the signed delta -30. -/
theorem C6_scenario_a :
    (process_purchase dbScenarioA 1 "alice" "PRD" 1).1 = .success ∧
    lookupBal (process_purchase dbScenarioA 1 "alice" "PRD" 1).2.users
      "ALICE" = some ⟨20, 0, 0⟩ ∧
    (process_purchase dbScenarioA 1 "alice" "PRD" 1).2.transaction_log.map
      LogEntry.type = ["PURCHASE"] ∧
    (process_purchase dbScenarioA 1 "alice" "PRD" 1).2.transaction_log.map
      LogEntry.amount = [-30] := by
  decide

/-- Store with one available unit and two funded buyers. -/
def dbTwoBuyers : DB :=
  ⟨[(1, "ALICE"), (2, "BOB")],
   [("ALICE", ⟨100, 0, 0⟩), ("BOB", ⟨100, 0, 0⟩)],
   [⟨"PRD", "Prod", 30, 1⟩], [⟨1, "PRD", "itemX", false, none⟩], [], []⟩

/-- Store with 101 stock units and a funded buyer, to exercise the ceiling. -/
def dbCeiling : DB :=
  ⟨[(1, "ALICE")], [("ALICE", ⟨101, 0, 0⟩)], [⟨"PRD", "Prod", 1, 101⟩],
   (List.range 101).map (fun i => ⟨i, "PRD", "line", false, none⟩), [], []⟩

/-- C7 counterexample: a purchase of quantity 101, above the configured
ceiling MAX_ITEMS_PER_TRANSACTION = 100, passes validation and succeeds —
the constant is defined in src/ext/constants.py but never consulted. -/
theorem C7_counterexample :
    MAX_ITEMS_PER_TRANSACTION < (101 : Int) ∧
    (buyModalSubmit dbCeiling 1 "alice" "PRD" 101).1 = some .success := by
  decide

/-- C7 amended: validation rejects a non-positive quantity without calling
process_purchase and without state change, and a purchase against an unknown
product code fails with no state change; no per-transaction ceiling is
enforced (MAX_ITEMS_PER_TRANSACTION is unused, and the quantity text field
only bounds input to three characters). -/
theorem C7_validation_behavior (db : DB) (uid : Nat) (uname code : String)
    (q : Int) :
    (q ≤ 0 → buyModalSubmit db uid uname code q = (none, db)) ∧
    (∀ g, 0 < q → lookupGrowid db.user_growid uid = some g →
      lookupProduct db.products code = none →
      buyModalSubmit db uid uname code q = (some .productNotFound, db)) := by
  constructor
  · intro h
    simp [buyModalSubmit, h]
  · intro g hq hg hp
    have hq2 : ¬ q ≤ 0 := by omega
    simp [buyModalSubmit, hq2, process_purchase, process_purchase_run,
      purchaseRead, hg, hp]

/-- Witness for C7: quantity 0 is rejected with no state change; an unknown
code fails with no state change. -/
theorem C7_validation_behavior_witness :
    buyModalSubmit dbCeiling 1 "alice" "PRD" 0 = (none, dbCeiling) ∧
    buyModalSubmit dbCeiling 1 "alice" "NOPE" 1 =
      (some .productNotFound, dbCeiling) :=
  ⟨(C7_validation_behavior dbCeiling 1 "alice" "PRD" 0).1 (by decide),
   (C7_validation_behavior dbCeiling 1 "alice" "NOPE" 1).2 "ALICE" (by decide)
     (by decide) (by decide)⟩

/-- C8 counterexample: with user 1 last allowed at time 0, a press at time 2
is suppressed but the stored timestamp is not refreshed (the map still holds
0, not 2), so a press at time 4 — two seconds after the suppressed retry,
inside the claimed refreshed window — is allowed. -/
theorem C8_counterexample :
    check_cooldown [(1, 0)] 1 2 = (false, [(1, 0)]) ∧
    (check_cooldown [(1, 0)] 1 2).2 ≠ [(1, 2)] ∧
    (check_cooldown [(1, 0)] 1 4).1 = true := by
  decide

/-- C8 amended: StockView.check_cooldown is keyed by the caller alone (one
shared map for all five buttons of the view, no command name involved); a
call within COOLDOWN_SECONDS of the stored timestamp is suppressed and
leaves the map untouched — the window is not extended —, and a call at or
past the window records the current time and is allowed. -/
theorem C8_cooldown_behavior (m : List (Nat × Int)) (uid : Nat) (now : Int) :
    (now - (lookupTime m uid).getD 0 < COOLDOWN_SECONDS →
      check_cooldown m uid now = (false, m)) ∧
    (COOLDOWN_SECONDS ≤ now - (lookupTime m uid).getD 0 →
      check_cooldown m uid now = (true, setTime m uid now)) := by
  constructor
  · intro h
    simp [check_cooldown, h]
  · intro h
    have h2 : ¬ now - (lookupTime m uid).getD 0 < COOLDOWN_SECONDS := by omega
    simp [check_cooldown, h2]

/-- Witness for C8: a press one second into the window is suppressed without
a write; a press five seconds after is allowed and recorded. -/
theorem C8_cooldown_behavior_witness :
    check_cooldown [(1, 0)] 1 1 = (false, [(1, 0)]) ∧
    check_cooldown [(1, 0)] 1 5 = (true, setTime [(1, 0)] 1 5) :=
  ⟨(C8_cooldown_behavior [(1, 0)] 1 1).1 (by decide),
   (C8_cooldown_behavior [(1, 0)] 1 5).2 (by decide)⟩

/-- Store holding one product whose stock counter is 5. -/
def dbProducts : DB := ⟨[], [], [⟨"PRD", "Prod", 30, 5⟩], [], [], []⟩

/-- C9 counterexample: the admin deleteproduct command removes a product
whose stock counter is 5 — deletion is not refused and the product does not
remain in the table. -/
theorem C9_counterexample :
    (admin_delete_product dbProducts "PRD").1 = .deleted ∧
    lookupProduct (admin_delete_product dbProducts "PRD").2.products "PRD" =
      none ∧
    (5 : Int) > 0 := by
  decide

/-- C9 amended: ProductManager.delete_product refuses to delete a product
with a positive stock counter and leaves the store unchanged, but
AdminCog.delete_product (the admin command path, once confirmed) deletes the
product regardless of its stock counter. -/
theorem C9_delete_product_behavior (db : DB) (code : String) (p : Product)
    (hp : lookupProduct db.products code = some p) :
    (p.stock > 0 → pm_delete_product db code = (.hasStock p.stock, db)) ∧
    admin_delete_product db code =
      (.deleted,
        { db with products := db.products.filter (fun q => q.code ≠ code) }) := by
  constructor
  · intro h
    simp [pm_delete_product, hp, h]
  · simp [admin_delete_product, hp]

/-- Witness for C9 on the stock-5 product. -/
theorem C9_delete_product_behavior_witness :
    pm_delete_product dbProducts "PRD" = (.hasStock 5, dbProducts) ∧
    admin_delete_product dbProducts "PRD" =
      (.deleted,
        { dbProducts with
            products := dbProducts.products.filter (fun q => q.code ≠ "PRD") }) :=
  ⟨(C9_delete_product_behavior dbProducts "PRD" ⟨"PRD", "Prod", 30, 5⟩
      (by decide)).1 (by decide),
   (C9_delete_product_behavior dbProducts "PRD" ⟨"PRD", "Prod", 30, 5⟩
      (by decide)).2⟩

/-- C2 counterexample: an execution of process_purchase exists (the marking
step after the committed debit raises, src/ext/trx.py lines 343-404) that
ends with the buyer ALICE debited 30 base units while the purchased unit was
never consumed — no compensating release happens because none exists. -/
theorem C2_counterexample :
    (process_purchase_run true dbScenarioA 1 "alice" "PRD" 1).1 =
      .purchaseError ∧
    lookupBal (process_purchase_run true dbScenarioA 1 "alice" "PRD"
      1).2.users "ALICE" = some ⟨20, 0, 0⟩ ∧
    (process_purchase_run true dbScenarioA 1 "alice" "PRD" 1).2.product_stock =
      [⟨1, "PRD", "secretline", false, none⟩] := by
  decide

/-- C2 amended: process_purchase only reads (and never reserves) stock rows
before the ledger mutation; the balance debit is performed and committed
first, on its own connection, and stock units are marked consumed only
afterwards.  When the marking step fails, the rollback discards the marks
but not the committed debit, and no release step runs: the execution ends
with the buyer debited, the PURCHASE ledger entry appended, and the stock
table exactly as it was before the call. -/
theorem C2_debit_commits_before_stock (db : DB) (uid : Nat)
    (uname code g : String) (q : Int) (prod : Product) (bal nb : Balance)
    (hg : lookupGrowid db.user_growid uid = some g)
    (hp : lookupProduct db.products code = some prod)
    (hs : ¬ prod.stock < q)
    (hb : lookupBal db.users g = some bal)
    (hf : ¬ bal.total < prod.price * q)
    (hnb : computeNewBalance bal.wl bal.dl bal.bgl (prod.price * q) = some nb)
    (hi : ¬ ((selectStock db.product_stock code q).length : Int) < q) :
    (process_purchase_run true db uid uname code q).1 = .purchaseError ∧
    (process_purchase_run true db uid uname code q).2.product_stock =
      db.product_stock ∧
    lookupBal (process_purchase_run true db uid uname code q).2.users g =
      some nb ∧
    (process_purchase_run true db uid uname code q).2.transaction_log.map
      LogEntry.type = db.transaction_log.map LogEntry.type ++ ["PURCHASE"] := by
  obtain ⟨nw, nd, nbg⟩ := nb
  simp only [process_purchase_run, purchaseRead, get_user_balance, hg, hp,
    hb, hnb, if_neg hs, if_neg hf, if_neg hi, update_balance,
    Option.getD_some, if_true]
  refine ⟨trivial, trivial, ?_, ?_⟩
  · rw [lookupBal_updateUsers, hb]
    simp only [Option.map_some', Option.some.injEq]
    simp [Balance.mk.injEq]
  · simp

/-- Witness for C2 on the Scenario A store: the failed-marking execution
leaves ALICE debited to (20, 0, 0), the PURCHASE entry committed, and the
stock row untouched. -/
theorem C2_debit_commits_before_stock_witness :
    (process_purchase_run true dbScenarioA 1 "alice" "PRD" 1).1 =
      .purchaseError ∧
    (process_purchase_run true dbScenarioA 1 "alice" "PRD" 1).2.product_stock =
      dbScenarioA.product_stock ∧
    lookupBal (process_purchase_run true dbScenarioA 1 "alice" "PRD"
      1).2.users "ALICE" = some ⟨20, 0, 0⟩ ∧
    (process_purchase_run true dbScenarioA 1 "alice" "PRD"
        1).2.transaction_log.map LogEntry.type =
      dbScenarioA.transaction_log.map LogEntry.type ++ ["PURCHASE"] :=
  C2_debit_commits_before_stock dbScenarioA 1 "alice" "PRD" "ALICE" 1
    ⟨"PRD", "Prod", 30, 1⟩ ⟨50, 0, 0⟩ ⟨20, 0, 0⟩ (by decide) (by decide)
    (by decide) (by decide) (by decide) (by decide) (by decide)

/-- Reading back a product after the stock decrement of decStock returns the
stored row with its counter lowered (or nothing when the code is unknown). -/
theorem lookupProduct_decStock (db : DB) (code : String) (q : Int) :
    lookupProduct (decStock db code q).products code =
      (lookupProduct db.products code).map
        (fun p => { p with stock := p.stock - q }) := by
  show lookupProduct (db.products.map _) code = _
  induction db.products with
  | nil => rfl
  | cons p rest ih =>
    by_cases h : p.code = code
    · simp only [List.map_cons, if_pos h]
      simp [lookupProduct, h]
    · simp only [List.map_cons, if_neg h]
      simp [lookupProduct, h, ih]

/-- The write phase of a purchase touches only users, transaction_log,
product_stock and products: the product row it leaves behind for the bought
code is the old row with the stock counter lowered by the bought quantity. -/
theorem purchaseCommit_products (db : DB) (uname g : String)
    (dw dd dg : Int) (ids : List Nat) (q : Int) (code pname : String) :
    lookupProduct (purchaseCommit db uname
        ⟨g, dw, dd, dg, ids, q, code, pname⟩).products code =
      (lookupProduct db.products code).map
        (fun p => { p with stock := p.stock - q }) :=
  lookupProduct_decStock _ code q

/-- C3: concurrent purchase handlers serialize, so with one available unit
(N-1 = 1 for N = 2 handlers) and a funded first buyer, exactly one handler
succeeds and the other is rejected with the not-enough-stock message — never
two successes, and no balance update is lost.  The serial schedule is the
only one the source admits: the bot runs on a single asyncio event loop and
process_purchase never yields between its first read and its commit, since
get_user_balance and update_balance have synchronous sqlite bodies that run
inline when awaited, and the first true suspension point (the await of
user.send, src/ext/trx.py line 378) comes after conn.commit at line 359. -/
theorem C3_concurrent_purchases_serialize (db : DB) (uidA uidB : Nat)
    (nameA nameB code g1 g2 : String) (prod : Product) (bal nb : Balance)
    (hg1 : lookupGrowid db.user_growid uidA = some g1)
    (hg2 : lookupGrowid db.user_growid uidB = some g2)
    (hp : lookupProduct db.products code = some prod)
    (hstock : prod.stock = 1)
    (hb1 : lookupBal db.users g1 = some bal)
    (hf : ¬ bal.total < prod.price * 1)
    (hnb : computeNewBalance bal.wl bal.dl bal.bgl (prod.price * 1) = some nb)
    (hitems : ¬ ((selectStock db.product_stock code 1).length : Int) < 1) :
    (twoSerial db uidA nameA uidB nameB code 1 1).1 = .success ∧
    (twoSerial db uidA nameA uidB nameB code 1 1).2.1 = .notEnoughStock 0 := by
  have hs : ¬ prod.stock < (1 : Int) := by omega
  have hf2 : ¬ bal.total < prod.price := by
    simpa using hf
  have hnb2 : computeNewBalance bal.wl bal.dl bal.bgl prod.price = some nb := by
    simpa using hnb
  have hrun1 : process_purchase db uidA nameA code 1 =
      (.success, purchaseCommit db nameA
        ⟨g1, nb.wl - bal.wl, nb.dl - bal.dl, nb.bgl - bal.bgl,
         (selectStock db.product_stock code 1).map StockItem.id, 1, code,
         prod.name⟩) := by
    simp [process_purchase, process_purchase_run, purchaseRead,
      get_user_balance, hg1, hp, hb1, hnb2, hs, hf2, hitems]
  have h1 : (process_purchase db uidA nameA code 1).1 = .success := by
    rw [hrun1]
  have hug : (process_purchase db uidA nameA code 1).2.user_growid =
      db.user_growid := by
    rw [hrun1]
    rfl
  have hp2 : lookupProduct (process_purchase db uidA nameA code
      1).2.products code = some { prod with stock := prod.stock - 1 } := by
    rw [hrun1]
    show lookupProduct (purchaseCommit db nameA
        ⟨g1, nb.wl - bal.wl, nb.dl - bal.dl, nb.bgl - bal.bgl,
         (selectStock db.product_stock code 1).map StockItem.id, 1, code,
         prod.name⟩).products code = _
    rw [purchaseCommit_products, hp]
    rfl
  have hs2 : ({ prod with stock := prod.stock - 1 } : Product).stock <
      (1 : Int) := by
    show prod.stock - 1 < (1 : Int)
    omega
  have hrun2 : ∀ mid : DB, lookupGrowid mid.user_growid uidB = some g2 →
      lookupProduct mid.products code =
        some { prod with stock := prod.stock - 1 } →
      (process_purchase mid uidB nameB code 1).1 = .notEnoughStock 0 := by
    intro mid hg2m hp2m
    simp only [process_purchase, process_purchase_run, purchaseRead, hg2m,
      hp2m, if_pos hs2]
    show PurchaseResult.notEnoughStock (prod.stock - 1) = .notEnoughStock 0
    rw [hstock]
    norm_num
  constructor
  · simp only [twoSerial]
    exact h1
  · simp only [twoSerial]
    exact hrun2 (process_purchase db uidA nameA code 1).2
      (by rw [hug]; exact hg2) hp2

/-- Witness for C3 on the two-buyer store: the serialized pair of purchases
gives one success and one rejection. -/
theorem C3_concurrent_purchases_serialize_witness :
    (twoSerial dbTwoBuyers 1 "alice" 2 "bob" "PRD" 1 1).1 = .success ∧
    (twoSerial dbTwoBuyers 1 "alice" 2 "bob" "PRD" 1 1).2.1 =
      .notEnoughStock 0 :=
  C3_concurrent_purchases_serialize dbTwoBuyers 1 2 "alice" "bob" "PRD"
    "ALICE" "BOB" ⟨"PRD", "Prod", 30, 1⟩ ⟨100, 0, 0⟩ ⟨70, 0, 0⟩ (by decide)
    (by decide) (by decide) (by decide) (by decide) (by decide) (by decide)
    (by decide)
